import Mathlib

/-!
Verification of the UI-TARS grounding-model server
(`src/gui_agents/grounding_model/server.py`) against its specification.

The server's pure request/response logic is shallowly embedded below:
Python strings are Lean `String`s, Python ints are `Int`/`Nat`, floats
(only ever compared, never computed with) are `Rat`, exceptions are
`Except`, and the out-of-scope inference runtime (model weights, tensor
calls, PIL byte decoding, base64 decoding) is abstracted into explicit
oracle parameters.  Each definition names the source function it embeds.
-/

namespace GroundingServer

/- ### Python string primitives used by the server -/

/-- Python `str.split(sep)` for a one-character separator, on the character
list of the string.  `"".split(",") == [""]`, `",x".split(",") == ["", "x"]`. -/
def pySplit (sep : Char) : List Char → List (List Char)
  | [] => [[]]
  | c :: rest =>
      let r := pySplit sep rest
      if c = sep then [] :: r
      else
        match r with
        | [] => [[c]]
        | h :: t => (c :: h) :: t

/-- Python `str.strip()`: drop leading and trailing whitespace. -/
def pyStrip (s : String) : String :=
  ⟨((s.data.dropWhile Char.isWhitespace).reverse.dropWhile Char.isWhitespace).reverse⟩

/-- Python `sep.join(xs)`. -/
def pyJoin (sep : String) : List String → String
  | [] => ""
  | [x] => x
  | x :: xs => x ++ sep ++ pyJoin sep xs

/-- Helper for Python `str.split()` with no argument: accumulate the current
word (reversed) and split on whitespace runs, dropping empty pieces. -/
def pyWordsAux : List Char → List Char → List String
  | [], acc => if acc.isEmpty then [] else [⟨acc.reverse⟩]
  | c :: rest, acc =>
      if c.isWhitespace then
        if acc.isEmpty then pyWordsAux rest []
        else ⟨acc.reverse⟩ :: pyWordsAux rest []
      else pyWordsAux rest (c :: acc)

/-- `len(s.split())` — the word-count approximation the server uses for
token usage numbers. -/
def pyWordCount (s : String) : Nat :=
  (pyWordsAux s.data []).length

/-- Python `int(...)` on a string of decimal digits. -/
def pyInt (digits : List Char) : Nat :=
  digits.foldl (fun n c => 10 * n + (c.toNat - 48)) 0

/-- Python `s.startswith(pre)`. -/
def pyStartsWith (pre s : String) : Bool :=
  pre.data.isPrefixOf s.data

/-- Accumulator pass of `re.findall(r"\d+", s)`: scan left to right,
collecting the current run of digits (reversed) in `acc` and emitting it
when a non-digit or the end of the string is reached. -/
def digitRunsAux : List Char → List Char → List (List Char)
  | [], acc => if acc.isEmpty then [] else [acc.reverse]
  | c :: rest, acc =>
      if c.isDigit then digitRunsAux rest (c :: acc)
      else if acc.isEmpty then digitRunsAux rest []
      else acc.reverse :: digitRunsAux rest []

/-- `re.findall(r"\d+", s)`: the maximal runs of decimal digits of `s`,
in order of appearance. -/
def digitRuns (s : String) : List (List Char) :=
  digitRunsAux s.data []

theorem dropWhileLengthLe (p : Char → Bool) :
    ∀ l : List Char, (l.dropWhile p).length ≤ l.length
  | [] => Nat.le_refl _
  | c :: rest => by
      simp only [List.dropWhile]
      cases hpc : p c with
      | true => exact Nat.le_succ_of_le (dropWhileLengthLe p rest)
      | false => simp

/-- The specification's reading of the same scan, stated directly:
at each digit take the whole maximal run and continue after it. -/
def maximalRuns : List Char → List (List Char)
  | [] => []
  | c :: cs =>
      if c.isDigit then
        (c :: cs.takeWhile Char.isDigit) :: maximalRuns (cs.dropWhile Char.isDigit)
      else
        maximalRuns cs
termination_by l => l.length
decreasing_by
  · simp only [List.length_cons]
    exact Nat.lt_succ_of_le (dropWhileLengthLe _ _)
  · simp

/- ### Exceptions -/

/-- The Python exceptions that flow through the server's handlers.
`http` is fastapi's `HTTPException` (a subclass of `Exception`, which is
why a bare `except Exception` catches it). -/
inductive PyExc where
  | http (status : Nat) (detail : String)
  | valueError (msg : String)
  | runtimeError (msg : String)
  | nameError (msg : String)
deriving Repr, DecidableEq

/-- Python `str(e)` for each exception.  For `HTTPException`, starlette
defines `__str__` as the status code, a colon and the detail. -/
def PyExc.str : PyExc → String
  | .http s d => toString s ++ ": " ++ d
  | .valueError m => m
  | .runtimeError m => m
  | .nameError m => m

/- ### Images and the image decoder (server.py 195-203) -/

/-- Raw bytes, abstracted. -/
abbrev Bytes := List Nat

/-- A PIL image: only the attributes the server looks at. -/
structure PILImage where
  mode : String
  width : Nat
  height : Nat
deriving Repr, DecidableEq

/-- PIL `Image.convert(mode)`: same pixels, new color mode. -/
def PILImage.convert (img : PILImage) (mode : String) : PILImage :=
  { img with mode := mode }

/-- The two external library calls `decode_image_from_base64` makes:
`base64.b64decode` and `PIL.Image.open`.  Both may raise. -/
structure ImageLib where
  b64decode : String → Except PyExc Bytes
  imageOpen : Bytes → Except PyExc PILImage

/-- The payload selection of `decode_image_from_base64` (server.py
198-199): `if "," in image_data: image_data = image_data.split(",")[1]`,
so the payload is the SECOND comma-separated field. -/
def commaPayload (image_data : String) : String :=
  if image_data.data.contains ',' then ⟨(pySplit ',' image_data.data)[1]!⟩
  else image_data

/-- `decode_image_from_base64` (server.py 195-203): select the payload,
base64-decode it, open the bytes as an image, convert to RGB; an exception
from either library call propagates. -/
def decode_image_from_base64 (lib : ImageLib) (image_data : String) :
    Except PyExc PILImage :=
  match lib.b64decode (commaPayload image_data) with
  | .error e => .error e
  | .ok image_bytes =>
      match lib.imageOpen image_bytes with
      | .error e => .error e
      | .ok image => .ok (image.convert "RGB")

/-- Everything strictly after the first comma, the payload selection that
claim C4 describes ("discards everything up to and including the first
comma and base64-decodes the entire remainder"). -/
def dropThroughFirstComma : List Char → List Char
  | [] => []
  | c :: rest => if c = ',' then rest else dropThroughFirstComma rest

/-- The payload selection claim C4 describes. -/
def claimedPayload (image_data : String) : String :=
  if image_data.data.contains ',' then ⟨dropThroughFirstComma image_data.data⟩
  else image_data

/-- The decoder as claim C4 words it: when a comma is present the whole
remainder after the first comma is the base64 payload. -/
def decode_image_claimed (lib : ImageLib) (image_data : String) :
    Except PyExc PILImage :=
  match lib.b64decode (claimedPayload image_data) with
  | .error e => .error e
  | .ok image_bytes =>
      match lib.imageOpen image_bytes with
      | .error e => .error e
      | .ok image => .ok (image.convert "RGB")

/- ### Chat messages and extraction (server.py 105-107, 206-229) -/

/-- The `image_url` value of a content part: in the wire format it should be
a dict with a `url` key, but the server guards with `isinstance(..., dict)`,
so a non-dict value is representable and ignored. -/
inductive ImageUrlField where
  | dict (url? : Option String)
  | nonDict
deriving Repr, DecidableEq

/-- One element of a `ChatMessage.content` list — a `Dict[str, Any]` in the
source; only the keys the server reads are modelled, each optional because
`dict.get` is used with defaults. -/
structure ContentPart where
  type? : Option String
  text? : Option String
  image_url? : Option ImageUrlField
deriving Repr, DecidableEq

/-- `ChatMessage` (server.py 105-107). -/
structure ChatMessage where
  role : String
  content : List ContentPart
deriving Repr, DecidableEq

/-- The per-part step of the inner loop of `extract_text_and_image`
(server.py 214-226): `acc` is the pair of the text accumulator and the
image seen so far. -/
def processPart (lib : ImageLib) (acc : List String × Option PILImage)
    (part : ContentPart) : List String × Option PILImage :=
  if part.type? = some "text" then
    (acc.1 ++ [part.text?.getD ""], acc.2)
  else if part.type? = some "image_url" then
    match part.image_url?.getD (.dict none) with
    | .dict url? =>
        let url := url?.getD ""
        if pyStartsWith "data:" url then
          match decode_image_from_base64 lib url with
          | .ok img => (acc.1, some img)
          | .error _ => acc
        else acc
    | .nonDict => acc
  else acc

/-- The per-message step of `extract_text_and_image` (server.py 212-213):
only user-role messages are processed. -/
def processMessage (lib : ImageLib) (acc : List String × Option PILImage)
    (m : ChatMessage) : List String × Option PILImage :=
  if m.role = "user" then m.content.foldl (processPart lib) acc else acc

/-- `extract_text_and_image` (server.py 206-229): fold the two loops and
finish with `"\n".join(text_parts).strip()`. -/
def extract_text_and_image (lib : ImageLib) (messages : List ChatMessage) :
    String × Option PILImage :=
  let acc := messages.foldl (processMessage lib) ([], none)
  (pyStrip (pyJoin "\n" acc.1), acc.2)

/- Specification-side views of the extraction, for claims C2 and C3. -/

/-- The text a content part contributes per the spec: text-typed parts
contribute their `text` field (empty when absent). -/
def textsOfPart (p : ContentPart) : Option String :=
  if p.type? = some "text" then some (p.text?.getD "") else none

/-- The data-URL a content part contributes per the spec: image-url-typed
parts whose url value is a dict and whose url begins with `data:`. -/
def dataUrlsOfPart (p : ContentPart) : Option String :=
  if p.type? = some "text" then none
  else if p.type? = some "image_url" then
    match p.image_url?.getD (.dict none) with
    | .dict url? =>
        let url := url?.getD ""
        if pyStartsWith "data:" url then some url else none
    | .nonDict => none
  else none

/-- Texts contributed by one message: nothing unless the role is `user`. -/
def textsOfMessage (m : ChatMessage) : List String :=
  if m.role = "user" then m.content.filterMap textsOfPart else []

/-- Data-URLs contributed by one message: nothing unless the role is `user`. -/
def dataUrlsOfMessage (m : ChatMessage) : List String :=
  if m.role = "user" then m.content.filterMap dataUrlsOfPart else []

/-- All texts of text-type content parts of user-role messages, in message
and part order. -/
def userTexts (messages : List ChatMessage) : List String :=
  (messages.map textsOfMessage).flatten

/-- All data-URLs of image parts of user-role messages, in message and part
order. -/
def userDataUrls (messages : List ChatMessage) : List String :=
  (messages.map dataUrlsOfMessage).flatten

/-- The image a single url yields, if its decode succeeds. -/
def decodedOption (lib : ImageLib) (url : String) : Option PILImage :=
  match decode_image_from_base64 lib url with
  | .ok img => some img
  | .error _ => none

/-- The first successfully decoded url of a list, if any. -/
def firstSuccess (lib : ImageLib) : List String → Option PILImage
  | [] => none
  | u :: us =>
      match decodedOption lib u with
      | some img => some img
      | none => firstSuccess lib us

/-- Left-biased choice on optional images (the overwrite discipline of the
extraction loop, read back to front). -/
def orDefault : Option PILImage → Option PILImage → Option PILImage
  | some img, _ => some img
  | none, b => b

/-- A well-formed text content part. -/
def textPart (t : String) : ContentPart :=
  { type? := some "text", text? := some t, image_url? := none }

/-- A well-formed image content part with the given url. -/
def imagePart (url : String) : ContentPart :=
  { type? := some "image_url", text? := none, image_url? := some (.dict (some url)) }

/- ### Model state and generation (server.py 98-102, 232-375) -/

/-- The process-wide model globals (server.py 98-102): whether `model` is
non-None, and the `model_type` string set by `load_model`. -/
structure ModelState where
  modelLoaded : Bool
  model_type : Option String
deriving Repr, DecidableEq

/-- The keyword arguments passed to `model.generate` — identical in every
branch of `generate_coordinates` (server.py 304-310, 329-335, 349-355):
`max_new_tokens=max_completion_tokens`, `temperature=temperature`,
`do_sample=temperature > 0.0`, `num_beams=1`. -/
structure GenArgs where
  maxNewTokens : Int
  temperature : Rat
  doSample : Bool
  numBeams : Nat
deriving Repr, DecidableEq

def genArgs (temperature : Rat) (max_completion_tokens : Int) : GenArgs :=
  { maxNewTokens := max_completion_tokens
    temperature := temperature
    doSample := decide (0 < temperature)
    numBeams := 1 }

/-- The identifiers bound in the scope of `generate_coordinates`: its
parameters, the locals its body assigns, and the module-level globals
(abridged to names; the point is which names exist at all).  Transcribed
from server.py; `full_prompt`, read at lines 321 and 345, is bound
nowhere in the file. -/
def generate_coordinates_scope : List String :=
  ["prompt", "image", "temperature", "max_completion_tokens",
   "messages", "text", "inputs", "image_inputs", "text_inputs",
   "outputs", "response", "numbers", "e",
   "processor", "tokenizer", "model", "model_type",
   "os", "base64", "io", "time", "re", "logging", "logger", "torch",
   "TRANSFORMERS_AVAILABLE", "MODEL_NAME", "DEVICE", "PORT", "HOST",
   "app", "lifespan", "load_model", "decode_image_from_base64",
   "extract_text_and_image", "generate_coordinates", "health_check",
   "chat_completions", "grounding_generate", "openai_exception_handler",
   "ChatMessage", "ChatCompletionRequest", "ChatCompletionResponse",
   "FastAPI", "HTTPException", "Request", "CORSMiddleware",
   "JSONResponse", "BaseModel", "uvicorn", "Image", "AutoProcessor",
   "AutoModelForVision2Seq", "AutoModelForCausalLM", "AutoTokenizer",
   "AutoImageProcessor", "AutoModel", "BlipProcessor",
   "BlipForConditionalGeneration"]

/-- Evaluating a bare identifier in the scope of `generate_coordinates`:
an unbound name raises `NameError` with Python's message. -/
def evalName (x : String) : Except PyExc Unit :=
  if x ∈ generate_coordinates_scope then .ok ()
  else .error (.nameError ("name \x27" ++ x ++ "\x27 is not defined"))

/-- Python `f"{model_type}"` when `model_type` is a string or None. -/
def showPyOpt : Option String → String
  | none => "None"
  | some s => s

/-- `generate_coordinates` (server.py 232-375).  The inference runtime is
an oracle `backend : GenArgs → String` giving the decoded generation
output; processor/tokenizer formatting calls are modelled as non-failing
(the runtime is out of scope).  Control flow — the model-not-loaded and
missing-image guards before the `try`, the four `model_type` branches,
the unbound `full_prompt` reads in the `auto` and `causal` branches, the
inner `except Exception` of the `auto` branch, `response.strip()`, and
the outer `except Exception` that rewraps everything as
`RuntimeError(f"Generation failed: {e}")` — is embedded faithfully. -/
def generate_coordinates (st : ModelState) (backend : GenArgs → String)
    (prompt : String) (image : Option PILImage)
    (temperature : Rat := 0) (max_completion_tokens : Int := 128) :
    Except PyExc String :=
  if st.modelLoaded = false then
    .error (.runtimeError "Model not loaded")
  else
    match image with
    | none => .error (.valueError "Image is required for grounding")
    | some _ =>
      let body : Except PyExc String :=
        if st.model_type = some "vision2seq" ∨ st.model_type = some "blip" then
          -- chat-template formatting with fallback affects only the text fed
          -- to the processor, which the backend oracle absorbs
          .ok (backend (genArgs temperature max_completion_tokens))
        else if st.model_type = some "auto" then
          -- inner try: `tokenizer(full_prompt, ...)` reads an unbound name;
          -- `except Exception as e: raise RuntimeError(f"AutoModel processing failed: {e}")`
          match evalName "full_prompt" with
          | .ok _ => .ok (backend (genArgs temperature max_completion_tokens))
          | .error e =>
              .error (.runtimeError ("AutoModel processing failed: " ++ e.str))
        else if st.model_type = some "causal" then
          -- `tokenizer(full_prompt, ...)` reads an unbound name, uncaught here
          match evalName "full_prompt" with
          | .ok _ => .ok (backend (genArgs temperature max_completion_tokens))
          | .error e => .error e
        else
          .error (.runtimeError ("Unknown model type: " ++ showPyOpt st.model_type))
      match body with
      | .ok response => .ok (pyStrip response)
      | .error e => .error (.runtimeError ("Generation failed: " ++ e.str))

/- ### Request and response shapes (server.py 110-123) -/

/-- The relevant keys of an incoming `/v1/chat/completions` JSON body
before pydantic validation.  `none` models an absent key.  `max_tokens`
appears here because claim C10 speaks about it: it is NOT a declared
field of the pydantic model. -/
structure RawChatRequest where
  model : String
  messages : List ChatMessage
  temperature : Option Rat
  max_tokens : Option Int
  max_completion_tokens : Option Int
deriving Repr, DecidableEq

/-- `ChatCompletionRequest` (server.py 110-114) after validation:
`temperature: Optional[float] = 0.0`, `max_completion_tokens: Optional[int]
= 128`. -/
structure ChatCompletionRequest where
  model : String
  messages : List ChatMessage
  temperature : Rat
  max_completion_tokens : Int
deriving Repr, DecidableEq

/-- Pydantic parsing of `ChatCompletionRequest` (server.py 110-114): the
declared fields are `model`, `messages`, `temperature` (default 0.0) and
`max_completion_tokens` (default 128).  No `max_tokens` field is declared,
and a pydantic `BaseModel` silently ignores undeclared keys. -/
def ChatCompletionRequest.ofRaw (raw : RawChatRequest) : ChatCompletionRequest :=
  { model := raw.model
    messages := raw.messages
    temperature := raw.temperature.getD 0
    max_completion_tokens := raw.max_completion_tokens.getD 128 }

/-- Token usage block of the completion response (word counts). -/
structure UsageInfo where
  prompt_tokens : Nat
  completion_tokens : Nat
  total_tokens : Nat
deriving Repr, DecidableEq

/-- The OpenAI-shaped success body built at server.py 418-438 (one choice,
flattened). -/
structure ChatCompletionResponse where
  id : String
  object : String
  created : Nat
  model : String
  choiceIndex : Nat
  choiceRole : String
  choiceContent : String
  finishReason : String
  usage : UsageInfo
deriving Repr, DecidableEq

/-- An escalated `HTTPException` as the HTTP layer sees it. -/
structure HTTPError where
  status : Nat
  detail : String
deriving Repr, DecidableEq

/-- The HTTP status of an endpoint outcome, when it is an error. -/
def errStatus? {α : Type} : Except HTTPError α → Option Nat
  | .error e => some e.status
  | .ok _ => none

/- ### Endpoints (server.py 390-478) and the error handler (81-96) -/

/-- The `try` body of `chat_completions` (server.py 399-440): extraction,
the two validation raises, generation, and the response assembly.
`now` is `int(time.time())`. -/
def chat_completions_body (st : ModelState) (backend : GenArgs → String)
    (lib : ImageLib) (now : Nat) (req : ChatCompletionRequest) :
    Except PyExc ChatCompletionResponse :=
  match extract_text_and_image lib req.messages with
  | (prompt, image) =>
    if prompt = "" then .error (.http 400 "No text prompt provided")
    else
      match image with
      | none => .error (.http 400 "No image provided")
      | some img =>
        match generate_coordinates st backend prompt (some img)
            req.temperature req.max_completion_tokens with
        | .error e => .error e
        | .ok response_text =>
            .ok { id := "chatcmpl-" ++ toString now
                  object := "chat.completion"
                  created := now
                  model := req.model
                  choiceIndex := 0
                  choiceRole := "assistant"
                  choiceContent := response_text
                  finishReason := "stop"
                  usage := { prompt_tokens := pyWordCount prompt
                             completion_tokens := pyWordCount response_text
                             total_tokens :=
                               pyWordCount prompt + pyWordCount response_text } }

/-- `chat_completions` (server.py 390-450): the `try` body above followed
by the `except` chain.  `except ValueError` maps to 400, `except
RuntimeError` to 500, and the final bare `except Exception` — which also
catches the endpoint's own `HTTPException(400)` raises, since
`HTTPException` subclasses `Exception` — re-raises 500 with
`f"Internal error: {str(e)}"`. -/
def chat_completions (st : ModelState) (backend : GenArgs → String)
    (lib : ImageLib) (now : Nat) (req : ChatCompletionRequest) :
    Except HTTPError ChatCompletionResponse :=
  match chat_completions_body st backend lib now req with
  | .ok r => .ok r
  | .error (.valueError m) => .error ⟨400, m⟩
  | .error (.runtimeError m) => .error ⟨500, m⟩
  | .error e => .error ⟨500, "Internal error: " ++ e.str⟩

/-- The body of `/grounding/generate` (server.py 472-475). -/
structure GroundingResponse where
  response : String
  coordinates : Option (List Nat)
deriving Repr, DecidableEq

/-- Coordinate extraction inlined at server.py 466-470:
`numbers = re.findall(r"\d+", response_text)`, then the first two as ints
when at least two exist, else None. -/
def extractCoordinates (response_text : String) : Option (List Nat) :=
  match digitRuns response_text with
  | n0 :: n1 :: _ => some [pyInt n0, pyInt n1]
  | _ => none

/-- The `try` body of `grounding_generate` (server.py 461-475): decode the
image, generate with default parameters, parse coordinates. -/
def grounding_generate_body (st : ModelState) (backend : GenArgs → String)
    (lib : ImageLib) (prompt image : String) :
    Except PyExc GroundingResponse :=
  match decode_image_from_base64 lib image with
  | .error e => .error e
  | .ok image_obj =>
      match generate_coordinates st backend prompt (some image_obj) with
      | .error e => .error e
      | .ok response_text =>
          .ok { response := response_text
                coordinates := extractCoordinates response_text }

/-- `grounding_generate` (server.py 453-478): the body above with one bare
`except Exception` mapping every failure to `HTTPException(500, str(e))`. -/
def grounding_generate (st : ModelState) (backend : GenArgs → String)
    (lib : ImageLib) (prompt image : String) :
    Except HTTPError GroundingResponse :=
  match grounding_generate_body st backend lib prompt image with
  | .ok r => .ok r
  | .error e => .error ⟨500, e.str⟩

/-- The error body rendered by `openai_exception_handler` (server.py
81-96); `errType` is the JSON key `"type"`. -/
structure ErrorBody where
  message : String
  errType : String
  code : Nat
deriving Repr, DecidableEq

/-- `openai_exception_handler` (server.py 81-96): every `HTTPException`
is rendered as status plus the uniform envelope. -/
def openai_exception_handler (exc : HTTPError) : Nat × ErrorBody :=
  (exc.status,
   { message := exc.detail
     errType := if exc.status = 400 then "invalid_request_error" else "server_error"
     code := exc.status })

/- ### HTTP-layer dispatch for /v1/chat/completions

server.py registers exactly one exception handler: the `HTTPException`
handler above (line 81).  Request-body validation happens in the framework
before the endpoint runs: pydantic either yields a validated
`ChatCompletionRequest` or raises `RequestValidationError`, which — with
no handler registered for it — fastapi's documented default answers with
HTTP 422 and the body `{"detail": [...]}`, a shape with no `error`
envelope at all. -/

/-- The outcome of parsing an incoming request body against the pydantic
model `ChatCompletionRequest` (server.py 110-114): a validated request, or
a malformed body with the validation error strings. -/
inductive RequestParse where
  | ok (req : ChatCompletionRequest)
  | malformed (errs : List String)
deriving Repr, DecidableEq

/-- An error response body as the client sees it: either the uniform
envelope rendered by `openai_exception_handler`, or fastapi's default
validation body `{"detail": [...]}`. -/
inductive ErrorResponseBody where
  | envelope (e : ErrorBody)
  | validationDetail (errs : List String)
deriving Repr, DecidableEq

/-- The shape claim C6 asserts of every non-2xx response: the uniform
envelope whose code is the HTTP status and whose type discriminant is
`invalid_request_error` exactly at 400 and `server_error` otherwise. -/
def isUniformEnvelope (status : Nat) (body : ErrorResponseBody) : Prop :=
  ∃ msg,
    body = .envelope
      { message := msg
        errType := if status = 400 then "invalid_request_error" else "server_error"
        code := status }

/-- `POST /v1/chat/completions` at the HTTP layer: a malformed body never
reaches the endpoint and is answered by the framework default (422,
`{"detail": [...]}`); a validated request runs `chat_completions`, whose
`HTTPException` outcome is rendered by `openai_exception_handler`. -/
def serve_chat_completions (st : ModelState) (backend : GenArgs → String)
    (lib : ImageLib) (now : Nat) :
    RequestParse → Except (Nat × ErrorResponseBody) ChatCompletionResponse
  | .malformed errs => .error (422, .validationDetail errs)
  | .ok req =>
      match chat_completions st backend lib now req with
      | .ok r => .ok r
      | .error e =>
          .error ((openai_exception_handler e).1,
                  .envelope (openai_exception_handler e).2)

/- ### Concrete fixtures used by witnesses and counterexamples -/

/-- The base64 alphabet (standard, with padding). -/
def isBase64Char (c : Char) : Bool :=
  c.isAlphanum || c = '+' || c = '/' || c = '='

/-- A concrete stand-in for the base64/PIL library pair, used only to
evaluate the embedding at concrete inputs: decoding fails exactly on
strings containing a character outside the base64 alphabet (a comma in
particular is rejected, as `base64.b64decode` with `validate=False` still
cannot produce output from stray punctuation-only groups of wrong
length), and opened images report mode `"P"`. -/
def testLib : ImageLib :=
  { b64decode := fun s =>
      if s.data.all isBase64Char then .ok (s.data.map Char.toNat)
      else .error (.valueError "Invalid base64-encoded string")
    imageOpen := fun bs => .ok { mode := "P", width := bs.length, height := 1 } }

/-- A loaded Vision2Seq model state. -/
def loadedVision2seq : ModelState := { modelLoaded := true, model_type := some "vision2seq" }

/-- A loaded state whose `model_type` is `auto`. -/
def loadedAuto : ModelState := { modelLoaded := true, model_type := some "auto" }

/-- A loaded state whose `model_type` is `causal`. -/
def loadedCausal : ModelState := { modelLoaded := true, model_type := some "causal" }

/-- A backend oracle that always answers `"(640, 480)"`. -/
def constBackend : GenArgs → String := fun _ => "(640, 480)"

/-- A concrete parsed request with one user message carrying a text part
and a data-URL image part, and an explicit `max_completion_tokens` of 64. -/
def reqW : ChatCompletionRequest :=
  ChatCompletionRequest.ofRaw
    { model := "ui-tars"
      messages := [{ role := "user",
                     content := [textPart "click",
                                 imagePart "data:image/png;base64,QkJC"] }]
      temperature := none
      max_tokens := none
      max_completion_tokens := some 64 }

/- ### Helper lemmas -/

theorem digitRunsAux_eq (l : List Char) : ∀ acc : List Char,
    digitRunsAux l acc =
      if acc.isEmpty then maximalRuns l
      else (acc.reverse ++ l.takeWhile Char.isDigit)
        :: maximalRuns (l.dropWhile Char.isDigit) := by
  induction l with
  | nil =>
      intro acc
      cases acc <;> simp [digitRunsAux, maximalRuns]
  | cons c rest ih =>
      intro acc
      by_cases hc : c.isDigit
      · have h1 := ih (c :: acc)
        simp only [List.isEmpty_cons, Bool.false_eq_true, if_false] at h1
        simp only [digitRunsAux, hc, if_true]
        rw [h1]
        cases acc with
        | nil =>
            simp [maximalRuns, hc, List.takeWhile_cons, List.dropWhile_cons]
        | cons a as =>
            simp [maximalRuns, hc, List.takeWhile_cons, List.dropWhile_cons,
              List.append_assoc]
      · have h0 := ih []
        simp only [List.isEmpty_nil, if_true] at h0
        simp only [digitRunsAux, hc, if_false]
        cases acc with
        | nil =>
            simp only [List.isEmpty_nil, if_true]
            rw [h0]
            simp [maximalRuns, hc]
        | cons a as =>
            simp only [List.isEmpty_cons, Bool.false_eq_true, if_false]
            rw [h0]
            simp [maximalRuns, hc, List.takeWhile_cons, List.dropWhile_cons]

theorem digitRuns_eq_maximalRuns (s : String) : digitRuns s = maximalRuns s.data := by
  rw [digitRuns, digitRunsAux_eq]
  simp

theorem processPart_fst (lib : ImageLib) (acc : List String × Option PILImage)
    (p : ContentPart) :
    (processPart lib acc p).1 = acc.1 ++ (textsOfPart p).toList := by
  unfold processPart textsOfPart
  by_cases ht : p.type? = some "text"
  · simp [ht]
  · simp only [ht, if_false]
    by_cases hi : p.type? = some "image_url"
    · simp only [hi, if_true]
      cases hu : p.image_url?.getD (.dict none) with
      | dict url? =>
          by_cases hd : pyStartsWith "data:" (url?.getD "")
          · simp only [hd, if_true]
            cases hdec : decode_image_from_base64 lib (url?.getD "") <;> simp
          · simp [hd]
      | nonDict => simp
    · simp [hi]

theorem processPart_snd (lib : ImageLib) (acc : List String × Option PILImage)
    (p : ContentPart) :
    (processPart lib acc p).2 =
      orDefault ((dataUrlsOfPart p).bind (decodedOption lib)) acc.2 := by
  unfold processPart dataUrlsOfPart decodedOption
  by_cases ht : p.type? = some "text"
  · simp [ht, orDefault]
  · simp only [ht, if_false]
    by_cases hi : p.type? = some "image_url"
    · simp only [hi, if_true]
      cases hu : p.image_url?.getD (.dict none) with
      | dict url? =>
          by_cases hd : pyStartsWith "data:" (url?.getD "")
          · simp only [hd, if_true]
            cases hdec : decode_image_from_base64 lib (url?.getD "") <;>
              simp [hdec, orDefault]
          · simp [hd, orDefault]
      | nonDict => simp [orDefault]
    · simp [hi, orDefault]

theorem orDefault_assoc (a b c : Option PILImage) :
    orDefault (orDefault a b) c = orDefault a (orDefault b c) := by
  cases a <;> cases b <;> simp [orDefault]

theorem firstSuccess_append (lib : ImageLib) (l1 l2 : List String) :
    firstSuccess lib (l1 ++ l2) = orDefault (firstSuccess lib l1) (firstSuccess lib l2) := by
  induction l1 with
  | nil => simp [firstSuccess, orDefault]
  | cons u us ih =>
      simp only [List.cons_append, firstSuccess]
      cases decodedOption lib u <;> simp [orDefault, ih]

theorem firstSuccess_single (lib : ImageLib) (u : String) :
    firstSuccess lib [u] = decodedOption lib u := by
  cases h : decodedOption lib u <;> simp [firstSuccess, h]

theorem foldl_processPart_fst (lib : ImageLib) (parts : List ContentPart) :
    ∀ acc, (parts.foldl (processPart lib) acc).1 = acc.1 ++ parts.filterMap textsOfPart := by
  induction parts with
  | nil => intro acc; simp
  | cons p rest ih =>
      intro acc
      simp only [List.foldl_cons]
      rw [ih, processPart_fst]
      cases h : textsOfPart p <;> simp [List.filterMap_cons, h, List.append_assoc]

theorem foldl_processPart_snd (lib : ImageLib) (parts : List ContentPart) :
    ∀ acc, (parts.foldl (processPart lib) acc).2 =
      orDefault (firstSuccess lib (parts.filterMap dataUrlsOfPart).reverse) acc.2 := by
  induction parts with
  | nil => intro acc; simp [firstSuccess, orDefault]
  | cons p rest ih =>
      intro acc
      simp only [List.foldl_cons]
      rw [ih, processPart_snd]
      cases h : dataUrlsOfPart p with
      | none => simp [List.filterMap_cons, h, Option.bind, orDefault]
      | some u =>
          simp only [List.filterMap_cons, h, Option.some_bind, List.reverse_cons,
            firstSuccess_append, firstSuccess_single]
          rw [orDefault_assoc]

theorem processMessage_fst (lib : ImageLib) (acc : List String × Option PILImage)
    (m : ChatMessage) :
    (processMessage lib acc m).1 = acc.1 ++ textsOfMessage m := by
  unfold processMessage textsOfMessage
  by_cases h : m.role = "user"
  · simp only [h, if_true]
    rw [foldl_processPart_fst]
  · simp [h]

theorem processMessage_snd (lib : ImageLib) (acc : List String × Option PILImage)
    (m : ChatMessage) :
    (processMessage lib acc m).2 =
      orDefault (firstSuccess lib (dataUrlsOfMessage m).reverse) acc.2 := by
  unfold processMessage dataUrlsOfMessage
  by_cases h : m.role = "user"
  · simp only [h, if_true]
    rw [foldl_processPart_snd]
  · simp [h, firstSuccess, orDefault]

theorem foldl_processMessage_fst (lib : ImageLib) (messages : List ChatMessage) :
    ∀ acc, (messages.foldl (processMessage lib) acc).1 = acc.1 ++ userTexts messages := by
  induction messages with
  | nil => intro acc; simp [userTexts]
  | cons m rest ih =>
      intro acc
      simp only [List.foldl_cons]
      rw [ih, processMessage_fst]
      simp [userTexts, List.append_assoc]

theorem foldl_processMessage_snd (lib : ImageLib) (messages : List ChatMessage) :
    ∀ acc, (messages.foldl (processMessage lib) acc).2 =
      orDefault (firstSuccess lib (userDataUrls messages).reverse) acc.2 := by
  induction messages with
  | nil => intro acc; simp [userDataUrls, firstSuccess, orDefault]
  | cons m rest ih =>
      intro acc
      simp only [List.foldl_cons]
      rw [ih, processMessage_snd]
      have : userDataUrls (m :: rest) = dataUrlsOfMessage m ++ userDataUrls rest := by
        simp [userDataUrls]
      rw [this, List.reverse_append, firstSuccess_append, orDefault_assoc]

theorem pySplit_takeWhile (sep : Char) (l : List Char) :
    ∃ t, pySplit sep l = l.takeWhile (fun c => !(c == sep)) :: t := by
  induction l with
  | nil => exact ⟨[], rfl⟩
  | cons c rest ih =>
      by_cases h : c = sep
      · subst h
        exact ⟨pySplit c rest, by simp [pySplit, List.takeWhile_cons]⟩
      · obtain ⟨t, ht⟩ := ih
        refine ⟨t, ?_⟩
        simp only [pySplit, h, if_false]
        rw [ht]
        simp [List.takeWhile_cons, h]

theorem pySplit_append (sep : Char) (a b : List Char) (ha : sep ∉ a) :
    pySplit sep (a ++ sep :: b) = a :: pySplit sep b := by
  induction a with
  | nil => simp [pySplit]
  | cons c arest ih =>
      simp only [List.mem_cons, not_or] at ha
      have hc : ¬(c = sep) := fun h => ha.1 h.symm
      have ih2 := ih ha.2
      simp only [List.cons_append, pySplit, hc, if_false, List.append_eq]
      rw [ih2]

theorem commaPayload_comma (a b : List Char) (ha : ',' ∉ a) :
    commaPayload ⟨a ++ ',' :: b⟩ = ⟨b.takeWhile (fun c => !(c == ','))⟩ := by
  unfold commaPayload
  have hcont : (String.mk (a ++ ',' :: b)).data.contains ',' = true := by
    simp [List.contains, List.elem_eq_mem]
  rw [if_pos hcont]
  rw [show (String.mk (a ++ ',' :: b)).data = a ++ ',' :: b from rfl]
  rw [pySplit_append ',' a b ha]
  obtain ⟨t, ht⟩ := pySplit_takeWhile ',' b
  rw [ht]
  simp

theorem commaPayload_no_comma (s : String) (h : ',' ∉ s.data) :
    commaPayload s = s := by
  unfold commaPayload
  have hc : s.data.contains ',' = false := by
    simp [List.contains, List.elem_eq_mem, h]
  rw [hc]
  simp

theorem generate_coordinates_vl (st : ModelState) (backend : GenArgs → String)
    (prompt : String) (img : PILImage) (t : Rat) (m : Int)
    (hload : st.modelLoaded = true)
    (htype : st.model_type = some "vision2seq" ∨ st.model_type = some "blip") :
    generate_coordinates st backend prompt (some img) t m
      = .ok (pyStrip (backend (genArgs t m))) := by
  unfold generate_coordinates
  rw [hload]
  simp only [Bool.true_eq_false, if_false]
  rw [if_pos htype]

theorem decode_image_mode (lib : ImageLib) (s : String) (img : PILImage)
    (h : decode_image_from_base64 lib s = .ok img) :
    img.mode = "RGB" := by
  unfold decode_image_from_base64 at h
  cases hb : lib.b64decode (commaPayload s) with
  | error e => rw [hb] at h; cases h
  | ok bytes =>
      rw [hb] at h
      dsimp only at h
      cases ho : lib.imageOpen bytes with
      | error e => rw [ho] at h; cases h
      | ok i =>
          rw [ho] at h
          cases h
          rfl

theorem decode_image_error_propagates (lib : ImageLib) (s : String) (e : PyExc)
    (h : lib.b64decode (commaPayload s) = .error e) :
    decode_image_from_base64 lib s = .error e := by
  unfold decode_image_from_base64
  rw [h]

/- ### Claim theorems -/

theorem orDefault_none (x : Option PILImage) : orDefault x none = x := by
  cases x <;> rfl

/-- C1: on `/grounding/generate` the model's response text is scanned left
to right for maximal runs of decimal digits; with at least two runs the
returned coordinates are the first two runs as integers, and with fewer
the request still succeeds with coordinates null.  "The point is at
(120, 340)" yields [120, 340]; "no coordinates here" and "only one: 42"
yield null. -/
theorem grounding_generate_coordinate_parsing
    (st : ModelState) (backend : GenArgs → String) (lib : ImageLib)
    (prompt imgstr : String) (img : PILImage)
    (hload : st.modelLoaded = true)
    (htype : st.model_type = some "vision2seq")
    (hdec : decode_image_from_base64 lib imgstr = .ok img) :
    grounding_generate st backend lib prompt imgstr
      = .ok { response := pyStrip (backend (genArgs 0 128))
              coordinates := extractCoordinates (pyStrip (backend (genArgs 0 128))) }
    ∧ (∀ s : String, digitRuns s = maximalRuns s.data)
    ∧ extractCoordinates "The point is at (120, 340)" = some [120, 340]
    ∧ extractCoordinates "no coordinates here" = none
    ∧ extractCoordinates "only one: 42" = none := by
  refine ⟨?_, digitRuns_eq_maximalRuns, rfl, rfl, rfl⟩
  unfold grounding_generate grounding_generate_body
  rw [hdec]
  dsimp only
  rw [generate_coordinates_vl st backend prompt img 0 128 hload (Or.inl htype)]

/-- C1 witness: a concrete loaded state, backend answering "(640, 480)"
and a decodable data-URL image; the endpoint succeeds and parses the
coordinates. -/
theorem grounding_generate_coordinate_parsing_witness :
    loadedVision2seq.modelLoaded = true
    ∧ loadedVision2seq.model_type = some "vision2seq"
    ∧ decode_image_from_base64 testLib "data:image/png;base64,QQ=="
        = .ok { mode := "RGB", width := 4, height := 1 }
    ∧ grounding_generate loadedVision2seq constBackend testLib
        "click submit" "data:image/png;base64,QQ=="
        = .ok { response := pyStrip (constBackend (genArgs 0 128))
                coordinates := extractCoordinates (pyStrip (constBackend (genArgs 0 128))) } :=
  ⟨rfl, rfl, rfl,
   (grounding_generate_coordinate_parsing loadedVision2seq constBackend testLib
     "click submit" "data:image/png;base64,QQ==" { mode := "RGB", width := 4, height := 1 }
     rfl rfl rfl).1⟩

/-- C2: extraction returns as image the most recent successfully decoded
data-URL image part across user messages (last wins); non-user messages,
non-data urls, non-dict url values and failed decodes contribute nothing;
with two user images A then B the result is B's decode. -/
theorem extract_image_last_wins (lib : ImageLib) (messages : List ChatMessage) :
    (extract_text_and_image lib messages).2
      = firstSuccess lib (userDataUrls messages).reverse
    ∧ (extract_text_and_image testLib
         [{ role := "user", content := [imagePart "data:A;base64,QQ=="] },
          { role := "user", content := [imagePart "data:B;base64,QkJCQg=="] }]).2
        = some { mode := "RGB", width := 8, height := 1 }
    ∧ decode_image_from_base64 testLib "data:B;base64,QkJCQg=="
        = .ok { mode := "RGB", width := 8, height := 1 } := by
  refine ⟨?_, rfl, rfl⟩
  unfold extract_text_and_image
  dsimp only
  rw [foldl_processMessage_snd, orDefault_none]

/-- C3: the extracted prompt is the newline-join of the texts of all
text-type parts of user-role messages, in order, trimmed; the parts
["find", "the button"] yield "find\nthe button". -/
theorem extract_prompt_text_order (lib : ImageLib) (messages : List ChatMessage) :
    (extract_text_and_image lib messages).1
      = pyStrip (pyJoin "\n" (userTexts messages))
    ∧ (extract_text_and_image lib
         [{ role := "user", content := [textPart "find", textPart "the button"] }]).1
        = "find\nthe button" := by
  constructor
  · unfold extract_text_and_image
    dsimp only
    rw [foldl_processMessage_fst]
    rfl
  · rfl

/-- C4 counterexample: on an input with two commas the source decoder
base64-decodes only the field between the first and second comma
("QQ=="), not the entire remainder after the first comma ("QQ==,junk!"),
so the two disagree: the code succeeds where the claimed reading must
reject the comma inside the payload. -/
theorem decode_image_first_comma_counterexample :
    decode_image_from_base64 testLib "data:image/png;base64,QQ==,junk!"
        = .ok { mode := "RGB", width := 4, height := 1 }
    ∧ decode_image_claimed testLib "data:image/png;base64,QQ==,junk!"
        = .error (.valueError "Invalid base64-encoded string")
    ∧ decode_image_from_base64 testLib "data:image/png;base64,QQ==,junk!"
        ≠ decode_image_claimed testLib "data:image/png;base64,QQ==,junk!" := by
  refine ⟨rfl, rfl, ?_⟩
  intro h
  rw [show decode_image_from_base64 testLib "data:image/png;base64,QQ==,junk!"
        = .ok { mode := "RGB", width := 4, height := 1 } from rfl] at h
  rw [show decode_image_claimed testLib "data:image/png;base64,QQ==,junk!"
        = .error (.valueError "Invalid base64-encoded string") from rfl] at h
  cases h

/-- C4 (amended): when a comma is present the decoder base64-decodes the
field between the first and the second comma (everything after the first
comma only up to the next comma); with no comma the whole string is the
payload; a successful decode is always converted to 3-channel RGB, and a
base64 failure propagates as the decode error. -/
theorem decode_image_payload_between_commas
    (lib : ImageLib) (a b : List Char) (s : String)
    (ha : ',' ∉ a) :
    commaPayload ⟨a ++ ',' :: b⟩ = ⟨b.takeWhile (fun c => !(c == ','))⟩
    ∧ (',' ∉ s.data → commaPayload s = s)
    ∧ (∀ img, decode_image_from_base64 lib s = .ok img → img.mode = "RGB")
    ∧ (∀ e, lib.b64decode (commaPayload s) = .error e →
        decode_image_from_base64 lib s = .error e) :=
  ⟨commaPayload_comma a b ha, commaPayload_no_comma s,
   fun img h => decode_image_mode lib s img h,
   fun e h => decode_image_error_propagates lib s e h⟩

/-- C4 witness: concrete payload selection around the first comma pair, a
comma-free payload left intact, and a concrete RGB decode. -/
theorem decode_image_payload_between_commas_witness :
    (',' ∉ ("pre".data))
    ∧ commaPayload ⟨"pre".data ++ ',' :: "QQ==,zz".data⟩
        = ⟨("QQ==,zz".data).takeWhile (fun c => !(c == ','))⟩
    ∧ (',' ∉ ("QQ==".data))
    ∧ commaPayload "QQ==" = "QQ=="
    ∧ decode_image_from_base64 testLib "QQ==" = .ok { mode := "RGB", width := 4, height := 1 }
    ∧ ({ mode := "RGB", width := 4, height := 1 } : PILImage).mode = "RGB" :=
  ⟨by decide,
   (decode_image_payload_between_commas testLib "pre".data "QQ==,zz".data "QQ==" (by decide)).1,
   by decide,
   (decode_image_payload_between_commas testLib "pre".data "QQ==,zz".data "QQ==" (by decide)).2.1 (by decide),
   rfl,
   (decode_image_payload_between_commas testLib "pre".data "QQ==,zz".data "QQ==" (by decide)).2.2.1 _ rfl⟩

/-- C5: the endpoint raises HTTPException(400) for an empty prompt, but the
raise happens inside its own `try`, whose bare `except Exception` catches
the HTTPException and re-raises it as 500, so an empty messages list is
answered with 500 and the envelope type "server_error" — not the 400 /
"invalid_request_error" the spec intends. -/
theorem chat_completions_empty_messages_500 :
    chat_completions loadedVision2seq constBackend testLib 0
        { model := "ui-tars", messages := [], temperature := 0, max_completion_tokens := 128 }
      = .error { status := 500, detail := "Internal error: 400: No text prompt provided" }
    ∧ (openai_exception_handler
         { status := 500, detail := "Internal error: 400: No text prompt provided" }).2.errType
        = "server_error" :=
  ⟨rfl, rfl⟩

/-- C6 counterexample: a malformed request body is answered by the
framework default — HTTP 422 with body `{"detail": [...]}` — because
server.py registers a handler only for HTTPException; that response is a
non-2xx response of the server that does not carry the uniform envelope,
so the claim fails on the very case it names. -/
theorem error_envelope_malformed_body_counterexample :
    serve_chat_completions loadedVision2seq constBackend testLib 0
        (.malformed ["body is not valid JSON"])
      = .error (422, .validationDetail ["body is not valid JSON"])
    ∧ ¬ isUniformEnvelope 422 (.validationDetail ["body is not valid JSON"]) :=
  ⟨rfl, by rintro ⟨msg, h⟩; cases h⟩

/-- C6 (amended): every error escalated by the server's own code is an
HTTPException rendered by openai_exception_handler as the uniform envelope
— message is the detail, code equals the HTTP status, and the type
discriminant is "invalid_request_error" exactly when the status is 400 and
"server_error" otherwise — so every non-2xx outcome of a request that
reaches the endpoint has the envelope; a malformed request body, however,
never reaches the endpoint: it is answered 422 with fastapi's default
`{"detail": [...]}` body, which is not the envelope. -/
theorem error_envelope_handler_scope
    (status : Nat) (detail : String)
    (st : ModelState) (backend : GenArgs → String) (lib : ImageLib)
    (now : Nat) (req : ChatCompletionRequest) (errs : List String) :
    openai_exception_handler { status := status, detail := detail }
      = (status,
         { message := detail
           errType := if status = 400 then "invalid_request_error" else "server_error"
           code := status })
    ∧ ((openai_exception_handler { status := status, detail := detail }).2.errType
        = "invalid_request_error" ↔ status = 400)
    ∧ (∀ s body,
        serve_chat_completions st backend lib now (.ok req) = .error (s, body) →
        isUniformEnvelope s body)
    ∧ serve_chat_completions st backend lib now (.malformed errs)
        = .error (422, .validationDetail errs)
    ∧ (∀ s errs2, ¬ isUniformEnvelope s (.validationDetail errs2)) := by
  refine ⟨rfl, ?_, ?_, rfl, ?_⟩
  · constructor
    · intro hh
      by_contra hne
      have hse : (openai_exception_handler { status := status, detail := detail }).2.errType
          = "server_error" := by
        simp [openai_exception_handler, hne]
      rw [hse] at hh
      exact absurd hh (by decide)
    · intro hh
      simp [openai_exception_handler, hh]
  · intro s body h
    unfold serve_chat_completions at h
    dsimp only at h
    cases hc : chat_completions st backend lib now req with
    | ok r => rw [hc] at h; cases h
    | error e =>
        rw [hc] at h
        dsimp only at h
        injection h with hpair
        injection hpair with hs hb
        subst hs
        subst hb
        exact ⟨e.detail, rfl⟩
  · intro s errs2
    rintro ⟨msg, h⟩
    cases h

/-- C6 witness: the discriminant at 400 and 502, a concrete request that
reaches the endpoint and errors rendering as the envelope, and a concrete
malformed body answered by the default 422 shape. -/
theorem error_envelope_handler_scope_witness :
    (openai_exception_handler { status := 400, detail := "bad request" }).2.errType
      = "invalid_request_error"
    ∧ (openai_exception_handler { status := 502, detail := "backend down" }).2.errType
      = "server_error"
    ∧ serve_chat_completions loadedVision2seq constBackend testLib 0
        (.ok { model := "m", messages := [], temperature := 0, max_completion_tokens := 128 })
        = .error (500, .envelope { message := "Internal error: 400: No text prompt provided"
                                   errType := "server_error"
                                   code := 500 })
    ∧ isUniformEnvelope 500
        (.envelope { message := "Internal error: 400: No text prompt provided"
                     errType := "server_error"
                     code := 500 })
    ∧ serve_chat_completions loadedVision2seq constBackend testLib 0
        (.malformed ["invalid JSON"])
        = .error (422, .validationDetail ["invalid JSON"]) :=
  ⟨(error_envelope_handler_scope 400 "bad request" loadedVision2seq constBackend testLib 0
      { model := "m", messages := [], temperature := 0, max_completion_tokens := 128 }
      []).2.1.mpr rfl,
   by rw [(error_envelope_handler_scope 502 "backend down" loadedVision2seq constBackend
        testLib 0
        { model := "m", messages := [], temperature := 0, max_completion_tokens := 128 }
        []).1]; rfl,
   rfl,
   (error_envelope_handler_scope 500 "x" loadedVision2seq constBackend testLib 0
      { model := "m", messages := [], temperature := 0, max_completion_tokens := 128 }
      []).2.2.1 500
      (.envelope { message := "Internal error: 400: No text prompt provided"
                   errType := "server_error"
                   code := 500 }) rfl,
   (error_envelope_handler_scope 500 "x" loadedVision2seq constBackend testLib 0
      { model := "m", messages := [], temperature := 0, max_completion_tokens := 128 }
      ["invalid JSON"]).2.2.2.1⟩

/-- C7: with model_type "auto" or "causal" the branches read the unbound
name `full_prompt`; the NameError is caught and surfaced as a generation
failure (wrapped once more by the inner except in the "auto" branch), so
generation never produces a response in those branches. -/
theorem generate_full_prompt_unbound
    (st : ModelState) (backend : GenArgs → String) (prompt : String)
    (img : PILImage) (t : Rat) (m : Int)
    (hload : st.modelLoaded = true) :
    (st.model_type = some "auto" →
       generate_coordinates st backend prompt (some img) t m
         = .error (.runtimeError
             "Generation failed: AutoModel processing failed: name \x27full_prompt\x27 is not defined"))
    ∧ (st.model_type = some "causal" →
       generate_coordinates st backend prompt (some img) t m
         = .error (.runtimeError
             "Generation failed: name \x27full_prompt\x27 is not defined")) := by
  obtain ⟨ml, mt⟩ := st
  dsimp only at hload
  subst hload
  constructor
  · intro htype
    dsimp only at htype
    subst htype
    rfl
  · intro htype
    dsimp only at htype
    subst htype
    rfl

/-- C7 witness: concrete loaded "auto" and "causal" states with a concrete
prompt and image. -/
theorem generate_full_prompt_unbound_witness :
    loadedAuto.modelLoaded = true
    ∧ loadedAuto.model_type = some "auto"
    ∧ loadedCausal.model_type = some "causal"
    ∧ generate_coordinates loadedAuto constBackend "find the button"
        (some { mode := "RGB", width := 2, height := 2 }) 0 128
        = .error (.runtimeError
            "Generation failed: AutoModel processing failed: name \x27full_prompt\x27 is not defined")
    ∧ generate_coordinates loadedCausal constBackend "find the button"
        (some { mode := "RGB", width := 2, height := 2 }) 0 128
        = .error (.runtimeError
            "Generation failed: name \x27full_prompt\x27 is not defined") :=
  ⟨rfl, rfl, rfl,
   (generate_full_prompt_unbound loadedAuto constBackend "find the button"
     { mode := "RGB", width := 2, height := 2 } 0 128 rfl).1 rfl,
   (generate_full_prompt_unbound loadedCausal constBackend "find the button"
     { mode := "RGB", width := 2, height := 2 } 0 128 rfl).2 rfl⟩

/-- C8: in `generate_coordinates` the model.generate call receives
`do_sample = (temperature > 0)` (so sampling is off exactly at temperature
0 and on for any positive temperature), `num_beams = 1`, and
`max_new_tokens` equal to the client-specified `max_completion_tokens`,
whose pydantic default is 128 when the client supplies none. -/
theorem generation_sampling_params
    (st : ModelState) (backend : GenArgs → String) (prompt : String)
    (img : PILImage) (t : Rat) (m : Int)
    (hload : st.modelLoaded = true)
    (htype : st.model_type = some "vision2seq" ∨ st.model_type = some "blip") :
    generate_coordinates st backend prompt (some img) t m
      = .ok (pyStrip (backend (genArgs t m)))
    ∧ ((genArgs t m).doSample = true ↔ 0 < t)
    ∧ (t = 0 → (genArgs t m).doSample = false)
    ∧ (genArgs t m).numBeams = 1
    ∧ (genArgs t m).maxNewTokens = m
    ∧ (∀ raw : RawChatRequest, raw.max_completion_tokens = none →
        (ChatCompletionRequest.ofRaw raw).max_completion_tokens = 128) := by
  refine ⟨generate_coordinates_vl st backend prompt img t m hload htype, ?_, ?_, rfl, rfl, ?_⟩
  · simp [genArgs]
  · intro ht
    subst ht
    simp [genArgs]
  · intro raw hraw
    simp [ChatCompletionRequest.ofRaw, hraw]

/-- C8 witness: a concrete loaded vision2seq state at temperature 0 with
max tokens 64; sampling is disabled there. -/
theorem generation_sampling_params_witness :
    loadedVision2seq.modelLoaded = true
    ∧ (loadedVision2seq.model_type = some "vision2seq"
        ∨ loadedVision2seq.model_type = some "blip")
    ∧ generate_coordinates loadedVision2seq constBackend "find"
        (some { mode := "RGB", width := 2, height := 2 }) 0 64
        = .ok (pyStrip (constBackend (genArgs 0 64)))
    ∧ (genArgs (0 : Rat) 64).doSample = false :=
  ⟨rfl, Or.inl rfl,
   (generation_sampling_params loadedVision2seq constBackend "find"
     { mode := "RGB", width := 2, height := 2 } 0 64 rfl (Or.inl rfl)).1,
   (generation_sampling_params loadedVision2seq constBackend "find"
     { mode := "RGB", width := 2, height := 2 } 0 64 rfl (Or.inl rfl)).2.2.1 rfl⟩

/-- C9 counterexample: an undecodable image ("!!!" is not valid base64) is
a validation-type failure, yet `/grounding/generate` answers 500, not the
400 the claim states. -/
theorem grounding_generate_validation_500_counterexample :
    errStatus? (grounding_generate loadedVision2seq constBackend testLib "click submit" "!!!")
      = some 500
    ∧ errStatus? (grounding_generate loadedVision2seq constBackend testLib "click submit" "!!!")
      ≠ some 400 := by
  have h1 : errStatus? (grounding_generate loadedVision2seq constBackend testLib
      "click submit" "!!!") = some 500 := rfl
  exact ⟨h1, by rw [h1]; decide⟩

/-- C9 (amended): every failure of `/grounding/generate` — undecodable
image, model not loaded, or generation failure alike — is mapped by its
single bare `except Exception` to HTTP 500; validation-type failures do
not produce 400 in this endpoint. -/
theorem grounding_generate_all_errors_500
    (st : ModelState) (backend : GenArgs → String) (lib : ImageLib)
    (prompt image : String) (e : HTTPError)
    (h : grounding_generate st backend lib prompt image = .error e) :
    e.status = 500 := by
  unfold grounding_generate at h
  cases hb : grounding_generate_body st backend lib prompt image with
  | ok r => rw [hb] at h; cases h
  | error e2 => rw [hb] at h; cases h; rfl

/-- C9 witness: a concrete failing request (invalid base64 image) whose
error status the amended theorem pins to 500. -/
theorem grounding_generate_all_errors_500_witness :
    grounding_generate loadedVision2seq constBackend testLib "x" "???"
      = .error { status := 500, detail := "Invalid base64-encoded string" }
    ∧ ({ status := 500, detail := "Invalid base64-encoded string" } : HTTPError).status = 500 :=
  ⟨rfl,
   grounding_generate_all_errors_500 loadedVision2seq constBackend testLib "x" "???" _ rfl⟩

/-- C10 counterexample: a request carrying `max_tokens = 5` and no
`max_completion_tokens` resolves to 128, not 5 — `max_tokens` is not a
declared field and takes no precedence. -/
theorem max_tokens_alias_counterexample :
    (ChatCompletionRequest.ofRaw
       { model := "ui-tars", messages := [], temperature := none,
         max_tokens := some 5, max_completion_tokens := none }).max_completion_tokens = 128
    ∧ (ChatCompletionRequest.ofRaw
       { model := "ui-tars", messages := [], temperature := none,
         max_tokens := some 5, max_completion_tokens := none }).max_completion_tokens ≠ 5 :=
  ⟨rfl, by decide⟩

/-- C10 (amended): `ChatCompletionRequest` declares only
`max_completion_tokens` (default 128); a `max_tokens` key is ignored
entirely, and the resolved `max_completion_tokens` value is what
`chat_completions` passes to generation as the maximum of new tokens. -/
theorem max_completion_tokens_resolution
    (raw : RawChatRequest) (v : Option Int)
    (st : ModelState) (backend : GenArgs → String) (lib : ImageLib)
    (now : Nat) (req : ChatCompletionRequest) (prompt : String) (img : PILImage)
    (hload : st.modelLoaded = true)
    (htype : st.model_type = some "vision2seq")
    (hext : extract_text_and_image lib req.messages = (prompt, some img))
    (hp : ¬ prompt = "") :
    ChatCompletionRequest.ofRaw { raw with max_tokens := v }
      = ChatCompletionRequest.ofRaw raw
    ∧ (ChatCompletionRequest.ofRaw raw).max_completion_tokens
        = raw.max_completion_tokens.getD 128
    ∧ (chat_completions st backend lib now req).map (fun r => r.choiceContent)
        = .ok (pyStrip (backend (genArgs req.temperature req.max_completion_tokens))) := by
  refine ⟨rfl, rfl, ?_⟩
  unfold chat_completions chat_completions_body
  rw [hext]
  dsimp only
  rw [if_neg hp]
  rw [generate_coordinates_vl st backend prompt img req.temperature
        req.max_completion_tokens hload (Or.inl htype)]
  rfl

/-- C10 witness: a concrete request declaring `max_completion_tokens = 64`
whose generation call uses exactly that resolved value. -/
theorem max_completion_tokens_resolution_witness :
    loadedVision2seq.modelLoaded = true
    ∧ loadedVision2seq.model_type = some "vision2seq"
    ∧ extract_text_and_image testLib (reqW.messages)
        = ("click", some { mode := "RGB", width := 4, height := 1 })
    ∧ ¬ ("click" = "")
    ∧ (chat_completions loadedVision2seq constBackend testLib 3 reqW).map
        (fun r => r.choiceContent)
        = .ok (pyStrip (constBackend (genArgs reqW.temperature reqW.max_completion_tokens))) :=
  ⟨rfl, rfl, rfl, by decide,
   (max_completion_tokens_resolution
     { model := "ui-tars", messages := [], temperature := none,
       max_tokens := none, max_completion_tokens := none } none
     loadedVision2seq constBackend testLib 3 reqW "click"
     { mode := "RGB", width := 4, height := 1 } rfl rfl rfl (by decide)).2.2⟩

end GroundingServer
